import Mathlib

/-!
Verification of the AirKorea PM2.5 dashboard pipeline
(`src/airkorea_streamlit.py`).

Shallow embedding conventions:

* JSON response bodies are modelled by the inductive `Json`.  The upstream
  environment (`Env`) maps a province name to the decoded body of the
  station-directory endpoint and a station name to the decoded body of the
  per-station time-series endpoint; a transport failure, an HTTP error
  status (`raise_for_status`) or an undecodable body is an `Except.error`
  carrying the corresponding Python exception class (`PyError`).
* Timestamps are modelled as integers (hours since an arbitrary epoch), so
  `timedelta(hours=n)` is simply the integer `n`; pollutant values are
  rationals.  `pd.to_datetime(·, errors="coerce")` and
  `pd.to_numeric(·, errors="coerce")` applied to string cells are modelled
  by two parser parameters `pdT : String → Option Int` and
  `pdN : String → Option ℚ` (`none` = NaT / NaN, subsequently dropped by
  `dropna`); the claims under study never depend on which concrete strings
  parse.  A JSON number cell coerces to itself under `to_numeric`; other
  non-string cells (absent keys, nulls, nested containers) are modelled as
  coercion failures, matching the NaN they produce in the dataframe.
* Dataframes are lists of typed rows; the column schema of the Python
  dataframe is the row type (`Reading` for per-station rows with columns
  datetime/value/station, `CityRow` for city rows with columns
  datetime/value/city).  An empty dataframe with the correct schema is the
  empty list at that row type.
* Python dict access: `d.get(k, default)` on a non-dict raises
  `AttributeError`; `d[k]` on a dict raises `KeyError` when the key is
  absent and `TypeError` on a non-dict — `jget` and `subscript` mirror
  this.  `sorted({...})` over extracted station names is modelled by
  `List.insertionSort (· ≤ ·)` over the deduplicated name list (any sort
  produces the same strictly increasing list of the distinct names).
-/

namespace AirKorea

/-- Decoded JSON values, as delivered by `r.json()`. -/
inductive Json where
  | null : Json
  | bool : Bool → Json
  | num : ℚ → Json
  | str : String → Json
  | arr : List Json → Json
  | obj : List (String × Json) → Json

/-- Python exception classes the pipeline can raise.  `requestError`
abstracts `requests` transport failures and `raise_for_status` HTTP
errors; `valueError` an undecodable body in `r.json()`. -/
inductive PyError where
  | requestError : PyError
  | valueError : PyError
  | keyError : PyError
  | attributeError : PyError
  | typeError : PyError
deriving DecidableEq, Repr

/-- The upstream API: for each `sidoName` the decoded body of
`getCtprvnRltmMesureDnsty`, and for each `stationName` the decoded body of
`getMsrstnAcctoRltmMesureDnsty` (with `dataTerm` fixed at "MONTH", the
only value the pipeline ever sends).  An `Except.error` is the exception
raised by `requests.get` / `raise_for_status` / `r.json()`. -/
structure Env where
  stationsResp : String → Except PyError Json
  seriesResp : String → Except PyError Json

/-- Python `d.get(key, default)`: on a dict, the value at `key` or the
default; on any non-dict value, `AttributeError`. -/
def jget (j : Json) (key : String) (default : Json) : Except PyError Json :=
  match j with
  | .obj fields => .ok ((fields.lookup key).getD default)
  | _ => .error .attributeError

/-- Python `d[key]`: `KeyError` when absent, `TypeError` on a non-dict. -/
def subscript (j : Json) (key : String) : Except PyError Json :=
  match j with
  | .obj fields =>
      match fields.lookup key with
      | some v => .ok v
      | none => .error .keyError
  | _ => .error .typeError

/-- Model of `r.json().get("response", {}).get("body", {}).get("items", [])`. -/
def getItems (body : Json) : Except PyError Json := do
  let resp ← jget body "response" (.obj [])
  let b ← jget resp "body" (.obj [])
  jget b "items" (.arr [])

/-- Model of `it["stationName"]`, required to be a string so that the set can be
sorted (the upstream schema delivers station names as strings). -/
def extractName (it : Json) : Except PyError String := do
  let v ← subscript it "stationName"
  match v with
  | .str s => pure s
  | _ => .error .typeError

/-- Python `sorted({...})`: the distinct elements in ascending order. -/
def sortedSet (names : List String) : List String :=
  List.insertionSort (· ≤ ·) names.dedup

/-- Model of `list_stations(sido)` (source lines 14-27): fetch the province body,
extract the items list, and return `sorted({it["stationName"] for it in
items})`.  Iterating a non-list `items` value cannot reach
`it["stationName"]` on a dict item, so it is modelled as the `TypeError`
it raises on every non-empty non-list value. -/
def list_stations (env : Env) (sido : String) : Except PyError (List String) := do
  let body ← env.stationsResp sido
  let items ← getItems body
  match items with
  | .arr xs => do
      let names ← xs.mapM extractName
      pure (sortedSet names)
  | _ => .error .typeError

/-- One surviving row of a per-station dataframe: columns
`datetime`, the pollutant value column (named after the target), and
`station`. -/
structure Reading where
  datetime : Int
  value : ℚ
  station : String
deriving DecidableEq, Repr

/-- Cell of column `k` in the dataframe row built from item `it` by
`pd.DataFrame(items)`: absent keys and non-dict items yield a missing
cell (NaN). -/
def lookupField (it : Json) (k : String) : Option Json :=
  match it with
  | .obj fields => fields.lookup k
  | _ => none

/-- Model of `pd.to_datetime(cell, errors="coerce")`: parse string cells with the
datetime parser, everything else is NaT (the upstream schema delivers
`dataTime` as a string). -/
def coerceDatetime (pdT : String → Option Int) : Option Json → Option Int
  | some (.str s) => pdT s
  | _ => none

/-- Model of `pd.to_numeric(cell, errors="coerce")`: parse string cells with the
numeric parser, a numeric cell coerces to itself, everything else is
NaN. -/
def coerceValue (pdN : String → Option ℚ) : Option Json → Option ℚ
  | some (.str s) => pdN s
  | some (.num q) => some q
  | _ => none

/-- Rename `dataTime → datetime` and `target+"Value" → target`, coerce
both columns, `dropna` on both, and assign the station: the rows
surviving from one item. -/
def parseRow (pdT : String → Option Int) (pdN : String → Option ℚ)
    (target station : String) (it : Json) : Option Reading :=
  match coerceDatetime pdT (lookupField it "dataTime"),
        coerceValue pdN (lookupField it (target ++ "Value")) with
  | some t, some v => some ⟨t, v, station⟩
  | _, _ => none

/-- Model of `station_recent_hours(station, data_term="MONTH", target)` (source
lines 32-58): fetch the station body, extract items; an empty items list
returns the empty correctly-shaped dataframe (source line 48-49), and
otherwise each item becomes a row, with rows whose datetime or value
fails to coerce dropped (lines 51-58).  A non-list `items` value makes
`pd.DataFrame` / column access fail, modelled as `TypeError`. -/
def station_recent_hours (env : Env) (pdT : String → Option Int)
    (pdN : String → Option ℚ) (station target : String) :
    Except PyError (List Reading) := do
  let body ← env.seriesResp station
  let items ← getItems body
  match items with
  | .arr xs => pure (xs.filterMap (parseRow pdT pdN target station))
  | _ => .error .typeError

/-- One row of a city-level dataframe: columns `datetime`, the averaged
pollutant value column, and `city`. -/
structure CityRow where
  datetime : Int
  value : ℚ
  city : String
deriving DecidableEq, Repr

/-- The `frames` list built by the fetch loop (source lines 66-72): for
each station, in order, append its dataframe; a station whose fetch
raises is skipped by the bare `except: pass`. -/
def fetchFrames (env : Env) (pdT : String → Option Int)
    (pdN : String → Option ℚ) (target : String) (names : List String) :
    List (List Reading) :=
  names.filterMap (fun n => (station_recent_hours env pdT pdN n target).toOption)

/-- Model of `df["datetime"].max()`: the maximum timestamp of the concatenated
frame, `none` (NaT) on an empty frame. -/
def listMax : List Int → Option Int
  | [] => none
  | t :: ts =>
      some (match listMax ts with
            | none => t
            | some m => max t m)

/-- Model of `tmax = df["datetime"].max(); cutoff = tmax - timedelta(hours=n_hours);
df = df[df["datetime"] >= cutoff]` (source lines 79-81).  On an empty
frame `tmax` is NaT and every comparison with NaT is false, so no row
survives. -/
def windowFilter (n_hours : Int) (df : List Reading) : List Reading :=
  match listMax (df.map (·.datetime)) with
  | none => []
  | some tmax => df.filter (fun r => decide (tmax - n_hours ≤ r.datetime))

/-- The arithmetic mean of the pollutant values of all rows of `rows`
whose timestamp is `t`. -/
def meanAt (rows : List Reading) (t : Int) : ℚ :=
  let vs := (rows.filter (fun r => r.datetime = t)).map (·.value)
  vs.sum / (vs.length : ℚ)

/-- Model of `df.groupby("datetime", as_index=False)[target].mean()` (source line
83): one row per distinct timestamp, keys in ascending order (pandas
groupby sorts keys), value the arithmetic mean over all rows sharing the
timestamp. -/
def groupMeanByDatetime (rows : List Reading) : List (Int × ℚ) :=
  (List.insertionSort (· ≤ ·) (rows.map (·.datetime)).dedup).map
    (fun t => (t, meanAt rows t))

/-- Model of `city_hourly_series(sido_kr, city_en, target, n_hours, max_stations)`
(source lines 63-85): resolve the province's stations (a failure here is
NOT caught and propagates), fetch the first `max_stations` stations with
per-station failures skipped, return the empty correctly-shaped frame
when no frame was collected, otherwise concatenate, window-filter, group
by timestamp averaging the value, and attach the city label. -/
def city_hourly_series (env : Env) (pdT : String → Option Int)
    (pdN : String → Option ℚ) (sido_kr city_en target : String)
    (n_hours : Int) (max_stations : Nat) : Except PyError (List CityRow) := do
  let stations ← list_stations env sido_kr
  let frames := fetchFrames env pdT pdN target (stations.take max_stations)
  if frames = [] then
    pure []
  else
    let df := frames.flatten
    let hourly := groupMeanByDatetime (windowFilter n_hours df)
    pure (hourly.map (fun p => ⟨p.1, p.2, city_en⟩))

/-- The concatenation `pd.concat(frames)` of the per-station frames the
aggregator collects (source line 77), exposed so that properties of the
window filter can be stated against the concatenated rows. -/
def concatRows (env : Env) (pdT : String → Option Int)
    (pdN : String → Option ℚ) (sido target : String) (max_stations : Nat) :
    Except PyError (List Reading) :=
  (list_stations env sido).map
    (fun stations => (fetchFrames env pdT pdN target (stations.take max_stations)).flatten)

/-- Model of `SIDO_MAP` (source line 87), as the ordered list of its items. -/
def SIDO_MAP : List (String × String) :=
  [("서울", "Seoul"), ("인천", "Incheon"), ("대전", "Daejeon"), ("부산", "Busan")]

/-- Model of `load_all_cities(n_hours, pollutant)` (source lines 89-93): run the
city aggregator for each configured province in order (an uncaught
exception from any invocation propagates) and concatenate all resulting
frames with `pd.concat`. -/
def load_all_cities (env : Env) (pdT : String → Option Int)
    (pdN : String → Option ℚ) (n_hours : Int) (pollutant : String) :
    Except PyError (List CityRow) := do
  let frames ← SIDO_MAP.mapM
    (fun kv => city_hourly_series env pdT pdN kv.1 kv.2 pollutant n_hours 6)
  pure frames.flatten

/-! Concrete sample data: a small upstream environment used to witness the
theorems below on explicit inputs. -/

/-- A station-directory item carrying only the station name. -/
def oneStation (n : String) : Json := .obj [("stationName", .str n)]

/-- A well-formed station-directory body listing the given names. -/
def dirBody (ns : List String) : Json :=
  .obj [("response", .obj [("body", .obj [("items", .arr (ns.map oneStation))])])]

/-- A time-series item with string `dataTime` and `pm25Value` cells. -/
def reading (t v : String) : Json :=
  .obj [("dataTime", .str t), ("pm25Value", .str v)]

/-- A well-formed time-series body listing the given (time, value) cells. -/
def serBody (rs : List (String × String)) : Json :=
  .obj [("response", .obj [("body", .obj [("items", .arr (rs.map (fun p => reading p.1 p.2)))])])]

/-- Sample upstream: Seoul has stations B and A (A listed twice), station A
reports hours 1 and 2, station B reports hour 2 plus one unparseable row;
the other three provinces list no stations; any other request fails. -/
def sampleEnv : Env where
  stationsResp := fun sido =>
    if sido = "서울" then .ok (dirBody ["B", "A", "A"])
    else if sido = "인천" then .ok (dirBody [])
    else if sido = "대전" then .ok (dirBody [])
    else if sido = "부산" then .ok (dirBody [])
    else .error .requestError
  seriesResp := fun st =>
    if st = "A" then .ok (serBody [("1", "10"), ("2", "20")])
    else if st = "B" then .ok (serBody [("2", "30"), ("x", "40")])
    else .error .requestError

/-- Sample datetime parser: recognises the instants "1", "2", "3". -/
def sampleT : String → Option Int := fun s =>
  if s = "1" then some 1 else if s = "2" then some 2
  else if s = "3" then some 3 else none

/-- Sample numeric parser: recognises the values used in the samples. -/
def sampleN : String → Option ℚ := fun s =>
  if s = "10" then some 10 else if s = "20" then some 20
  else if s = "30" then some 30 else if s = "40" then some 40 else none

/-- Variant of the sample upstream in which every per-station time-series
fetch fails at transport level. -/
def allSeriesFailEnv : Env where
  stationsResp := sampleEnv.stationsResp
  seriesResp := fun _ => .error .requestError

/-- Variant of the sample upstream in which the station-directory fetch
for Seoul fails at transport level while every other request behaves as
in `sampleEnv` (so the sibling provinces could still contribute). -/
def dirFailEnv : Env where
  stationsResp := fun sido =>
    if sido = "서울" then .error .requestError else sampleEnv.stationsResp sido
  seriesResp := sampleEnv.seriesResp

/-- A syntactically valid JSON body whose items list holds one item that
lacks the `stationName` key. -/
def noNameBody : Json :=
  .obj [("response", .obj [("body", .obj [("items", .arr [.obj []])])])]

/-- Upstream whose directory responses all deliver `noNameBody` with HTTP
status 200. -/
def noNameEnv : Env where
  stationsResp := fun _ => .ok noNameBody
  seriesResp := fun _ => .error .requestError

/-- Upstream whose directory responses deliver an empty JSON object body
(the response schema omits the items list) with HTTP status 200. -/
def emptyDirEnv : Env where
  stationsResp := fun _ => .ok (.obj [])
  seriesResp := fun _ => .error .requestError

/-- Upstream whose Seoul directory lists stations in the order B, A. -/
def permEnvBA : Env where
  stationsResp := fun _ => .ok (dirBody ["B", "A"])
  seriesResp := fun _ => .error .requestError

/-- Upstream whose Seoul directory lists stations in the order A, B. -/
def permEnvAB : Env where
  stationsResp := fun _ => .ok (dirBody ["A", "B"])
  seriesResp := fun _ => .error .requestError

/-! Helper lemmas. -/

/-- A dataframe with no rows has no maximum timestamp and conversely. -/
theorem listMax_eq_none_iff (l : List Int) : listMax l = none ↔ l = [] := by
  cases l <;> simp [listMax]

/-- Every entry of a column is bounded by the column's maximum. -/
theorem le_listMax {l : List Int} {t : Int} (ht : t ∈ l) :
    ∀ {m : Int}, listMax l = some m → t ≤ m := by
  induction l with
  | nil => cases ht
  | cons a as ih =>
    intro m hm
    simp only [listMax, Option.some.injEq] at hm
    rcases List.mem_cons.mp ht with rfl | hmem
    · cases h2 : listMax as
      · rw [h2] at hm; exact le_of_eq hm
      · rw [h2] at hm; exact hm ▸ le_max_left _ _
    · cases h2 : listMax as
      · rw [listMax_eq_none_iff] at h2; subst h2; cases hmem
      · rw [h2] at hm
        exact le_trans (ih hmem h2) (hm ▸ le_max_right _ _)

/-- Membership in the window filter, expressed through the cutoff, when
the concatenated frame has a maximum timestamp. -/
theorem mem_windowFilter {n : Int} {df : List Reading} {tmax : Int}
    (h : listMax (df.map (fun r => r.datetime)) = some tmax) {r : Reading} :
    r ∈ windowFilter n df ↔ r ∈ df ∧ tmax - n ≤ r.datetime := by
  unfold windowFilter
  rw [h]
  simp [List.mem_filter]

/-- Every output pair of the groupby-mean has a key occurring among the
input timestamps and carries the mean at that key. -/
theorem groupMean_mem {rows : List Reading} {p : Int × ℚ}
    (h : p ∈ groupMeanByDatetime rows) :
    p.1 ∈ rows.map (fun r => r.datetime) ∧ p.2 = meanAt rows p.1 := by
  unfold groupMeanByDatetime at h
  rcases List.mem_map.mp h with ⟨t, ht, rfl⟩
  refine ⟨?_, rfl⟩
  exact List.mem_dedup.mp
    ((List.perm_insertionSort (· ≤ ·) ((rows.map (fun r => r.datetime)).dedup)).mem_iff.mp ht)

/-- The key column of the groupby-mean output is the sorted list of the
distinct input timestamps. -/
theorem groupMean_keys (rows : List Reading) :
    (groupMeanByDatetime rows).map Prod.fst
      = List.insertionSort (· ≤ ·) (rows.map (fun r => r.datetime)).dedup := by
  unfold groupMeanByDatetime
  rw [List.map_map]
  exact List.map_id _

/-- The key column of the groupby-mean output is strictly increasing. -/
theorem groupMean_keys_sorted (rows : List Reading) :
    ((groupMeanByDatetime rows).map Prod.fst).Sorted (· < ·) := by
  rw [groupMean_keys]
  refine List.Sorted.lt_of_le (List.sorted_insertionSort _ _) ?_
  exact ((List.perm_insertionSort (· ≤ ·) _).nodup_iff).mpr (List.nodup_dedup _)

/-- Unfolding of the aggregator's monadic pipeline. -/
theorem city_hourly_series_eq (env : Env) (pdT : String → Option Int)
    (pdN : String → Option ℚ) (sido city target : String) (n : Int) (ms : Nat) :
    city_hourly_series env pdT pdN sido city target n ms =
      (list_stations env sido).bind (fun stations =>
        let frames := fetchFrames env pdT pdN target (stations.take ms)
        if frames = [] then .ok []
        else .ok ((groupMeanByDatetime (windowFilter n frames.flatten)).map
          (fun p => ⟨p.1, p.2, city⟩))) := rfl

/-- Claim C1: for every non-empty collection of per-station rows, every
row the City Aggregator outputs has a timestamp at least the maximum
timestamp of the concatenated per-station rows minus the window, and at
most that maximum: no output row lies outside the window. -/
theorem c1_output_within_window (env : Env) (pdT : String → Option Int)
    (pdN : String → Option ℚ) (sido city target : String) (n : Int)
    (ms : Nat) (out : List CityRow) (df : List Reading) (tmax : Int)
    (hc : city_hourly_series env pdT pdN sido city target n ms = .ok out)
    (hdf : concatRows env pdT pdN sido target ms = .ok df)
    (hmax : listMax (df.map (fun r => r.datetime)) = some tmax) :
    ∀ r ∈ out, tmax - n ≤ r.datetime ∧ r.datetime ≤ tmax := by
  intro r hr
  rw [city_hourly_series_eq] at hc
  unfold concatRows at hdf
  cases hs : list_stations env sido with
  | error e => rw [hs] at hc; simp [Except.bind] at hc
  | ok stations =>
    rw [hs] at hc hdf
    simp only [Except.bind] at hc
    have hdf' : (fetchFrames env pdT pdN target (stations.take ms)).flatten = df := by
      simpa [Except.map] using hdf
    by_cases hfe : fetchFrames env pdT pdN target (stations.take ms) = []
    · rw [hfe] at hdf'
      rw [← hdf'] at hmax
      simp [listMax] at hmax
    · rw [if_neg hfe] at hc
      simp only [Except.ok.injEq] at hc
      rw [hdf'] at hc
      subst hc
      rcases List.mem_map.mp hr with ⟨p, hp, rfl⟩
      obtain ⟨hmem, -⟩ := groupMean_mem hp
      rcases List.mem_map.mp hmem with ⟨x, hx, hxd⟩
      rw [mem_windowFilter hmax] at hx
      refine ⟨hxd ▸ hx.2, hxd ▸ ?_⟩
      exact le_listMax (List.mem_map.mpr ⟨x, hx.1, rfl⟩) hmax

/-- Witness for C1: at the sample upstream with a 48-hour window, the
Seoul output rows all lie within the window anchored at hour 2. -/
theorem c1_witness :
    (2:Int) - 48 ≤ (⟨1, 10, "Seoul"⟩ : CityRow).datetime
    ∧ (⟨1, 10, "Seoul"⟩ : CityRow).datetime ≤ 2 :=
  c1_output_within_window sampleEnv sampleT sampleN "서울" "Seoul" "pm25" 48 6
    [⟨1, 10, "Seoul"⟩, ⟨2, 25, "Seoul"⟩]
    [⟨1, 10, "A"⟩, ⟨2, 20, "A"⟩, ⟨2, 30, "B"⟩] 2
    (by with_unfolding_all rfl) (by with_unfolding_all rfl)
    (by with_unfolding_all rfl)
    ⟨1, 10, "Seoul"⟩ (List.mem_cons_self _ _)

/-- Claim C2: on the surviving (window-filtered) per-station rows, the
City Aggregator outputs exactly one row per distinct timestamp — its key
column is the ascending enumeration of the distinct surviving timestamps —
each row's value is the arithmetic mean of the pollutant values of all
rows sharing that timestamp, the city label is attached to every row, and
the output is ordered by timestamp; every output timestamp stems from at
least one contributing station reading. -/
theorem c2_group_mean_output (env : Env) (pdT : String → Option Int)
    (pdN : String → Option ℚ) (sido city target : String) (n : Int)
    (ms : Nat) (out : List CityRow) (df : List Reading)
    (hc : city_hourly_series env pdT pdN sido city target n ms = .ok out)
    (hdf : concatRows env pdT pdN sido target ms = .ok df) :
    out.map (fun r => r.datetime)
        = List.insertionSort (· ≤ ·) ((windowFilter n df).map (fun r => r.datetime)).dedup
    ∧ (out.map (fun r => r.datetime)).Sorted (· < ·)
    ∧ ∀ r ∈ out, r.city = city ∧ r.value = meanAt (windowFilter n df) r.datetime
        ∧ r.datetime ∈ (windowFilter n df).map (fun r => r.datetime) := by
  rw [city_hourly_series_eq] at hc
  unfold concatRows at hdf
  cases hs : list_stations env sido with
  | error e => rw [hs] at hc; simp [Except.bind] at hc
  | ok stations =>
    rw [hs] at hc hdf
    simp only [Except.bind] at hc
    have hdf' : (fetchFrames env pdT pdN target (stations.take ms)).flatten = df := by
      simpa [Except.map] using hdf
    by_cases hfe : fetchFrames env pdT pdN target (stations.take ms) = []
    · rw [hfe] at hdf'
      rw [if_pos hfe] at hc
      simp only [Except.ok.injEq] at hc
      subst hc
      have hdfnil : df = [] := hdf'.symm ▸ rfl
      subst hdfnil
      refine ⟨by simp [windowFilter, listMax], by simp, by simp⟩
    · rw [if_neg hfe] at hc
      simp only [Except.ok.injEq] at hc
      rw [hdf'] at hc
      subst hc
      refine ⟨?_, ?_, ?_⟩
      · rw [List.map_map]
        exact groupMean_keys (windowFilter n df)
      · rw [List.map_map]
        exact groupMean_keys_sorted (windowFilter n df)
      · intro r hr
        rcases List.mem_map.mp hr with ⟨p, hp, rfl⟩
        obtain ⟨hmem, hval⟩ := groupMean_mem hp
        exact ⟨rfl, hval, hmem⟩

/-- Witness for C2: at the sample upstream, the Seoul output has one row
per distinct timestamp in ascending order, each carrying the spatial
mean of the surviving station rows. -/
theorem c2_witness :
    ([⟨1, 10, "Seoul"⟩, ⟨2, 25, "Seoul"⟩] : List CityRow).map (fun r => r.datetime)
        = List.insertionSort (· ≤ ·)
            ((windowFilter 48 [⟨1, 10, "A"⟩, ⟨2, 20, "A"⟩, ⟨2, 30, "B"⟩]).map
              (fun r => r.datetime)).dedup
    ∧ (([⟨1, 10, "Seoul"⟩, ⟨2, 25, "Seoul"⟩] : List CityRow).map
        (fun r => r.datetime)).Sorted (· < ·)
    ∧ ∀ r ∈ ([⟨1, 10, "Seoul"⟩, ⟨2, 25, "Seoul"⟩] : List CityRow),
        r.city = "Seoul"
        ∧ r.value = meanAt (windowFilter 48 [⟨1, 10, "A"⟩, ⟨2, 20, "A"⟩, ⟨2, 30, "B"⟩]) r.datetime
        ∧ r.datetime ∈ (windowFilter 48 [⟨1, 10, "A"⟩, ⟨2, 20, "A"⟩, ⟨2, 30, "B"⟩]).map
            (fun r => r.datetime) :=
  c2_group_mean_output sampleEnv sampleT sampleN "서울" "Seoul" "pm25" 48 6
    [⟨1, 10, "Seoul"⟩, ⟨2, 25, "Seoul"⟩]
    [⟨1, 10, "A"⟩, ⟨2, 20, "A"⟩, ⟨2, 30, "B"⟩]
    (by with_unfolding_all rfl) (by with_unfolding_all rfl)

/-- Reduction of a monadic bind on a successful result. -/
theorem okBind {ε α β : Type} (a : α) (f : α → Except ε β) :
    (Except.ok a : Except ε α) >>= f = f a := rfl

/-- Reduction of a monadic bind on a raised exception. -/
theorem errBind {ε α β : Type} (e : ε) (f : α → Except ε β) :
    (Except.error e : Except ε α) >>= f = .error e := rfl

/-- Identification of `pure` with a successful result. -/
theorem pureEqOk {ε α : Type} (a : α) : (pure a : Except ε α) = .ok a := rfl

/-- Claim C3 (amended): a transport failure of the station-directory
fetch for a province is NOT caught inside the pipeline — the exception
propagates out of the City Aggregator, and when the failing province is
the first configured one the whole multi-city load aborts with it, so
sibling provinces are not processed into a result. -/
theorem c3_directory_failure_propagates (env : Env) (pdT : String → Option Int)
    (pdN : String → Option ℚ) (en target : String) (n : Int) (ms : Nat)
    (e : PyError) (h : env.stationsResp "서울" = .error e) :
    city_hourly_series env pdT pdN "서울" en target n ms = .error e ∧
    load_all_cities env pdT pdN n target = .error e := by
  have hls : list_stations env "서울" = .error e := by
    unfold list_stations
    rw [h]
    rfl
  have hcity : ∀ en2 ms2, city_hourly_series env pdT pdN "서울" en2 target n ms2 = .error e := by
    intro en2 ms2
    rw [city_hourly_series_eq, hls]
    rfl
  refine ⟨hcity en ms, ?_⟩
  unfold load_all_cities
  simp only [SIDO_MAP, List.mapM_cons, hcity "Seoul" 6, errBind]

/-- Witness for C3 (amended): on the sample upstream with the Seoul
directory fetch failing, both the Seoul aggregation and the whole load
raise that error. -/
theorem c3_witness :
    city_hourly_series dirFailEnv sampleT sampleN "서울" "Seoul" "pm25" 48 6
        = .error .requestError ∧
    load_all_cities dirFailEnv sampleT sampleN 48 "pm25" = .error .requestError :=
  c3_directory_failure_propagates dirFailEnv sampleT sampleN "Seoul" "pm25" 48 6
    .requestError rfl

/-- Counterexample to claim C3 as stated: at `dirFailEnv` the Seoul
directory fetch fails at transport level, the sibling province Incheon
aggregates fine on its own, yet the overall load aborts with the error
instead of treating Seoul as contributing nothing. -/
theorem c3_counterexample :
    dirFailEnv.stationsResp "서울" = .error .requestError
    ∧ city_hourly_series dirFailEnv sampleT sampleN "인천" "Incheon" "pm25" 48 6 = .ok []
    ∧ load_all_cities dirFailEnv sampleT sampleN 48 "pm25" = .error .requestError :=
  ⟨rfl, by with_unfolding_all rfl, by with_unfolding_all rfl⟩

/-- Claim C4: a station whose time-series fetch raises contributes no
frame and is skipped: the collected frames are exactly those of the
other stations, in their order — the failure aborts nothing. -/
theorem c4_failed_station_skipped (env : Env) (pdT : String → Option Int)
    (pdN : String → Option ℚ) (target : String) (l1 l2 : List String)
    (s : String) (e : PyError)
    (h : station_recent_hours env pdT pdN s target = .error e) :
    fetchFrames env pdT pdN target (l1 ++ s :: l2)
      = fetchFrames env pdT pdN target (l1 ++ l2) := by
  unfold fetchFrames
  rw [List.filterMap_append, List.filterMap_append, List.filterMap_cons, h]
  exact rfl

/-- Witness for C4: in the sample upstream, station C's fetch fails and
the frames for A, C, B equal the frames for A, B. -/
theorem c4_witness :
    fetchFrames sampleEnv sampleT sampleN "pm25" (["A"] ++ "C" :: ["B"])
      = fetchFrames sampleEnv sampleT sampleN "pm25" (["A"] ++ ["B"]) :=
  c4_failed_station_skipped sampleEnv sampleT sampleN "pm25" ["A"] ["B"] "C"
    .requestError (by with_unfolding_all rfl)

/-- Claim C5: whenever no sampled station produced any rows — in
particular when every per-station fetch fails — the City Aggregator
returns the zero-row table of the city schema rather than an error. -/
theorem c5_no_rows_empty_schema (env : Env) (pdT : String → Option Int)
    (pdN : String → Option ℚ) (sido city target : String) (n : Int)
    (ms : Nat) (stations : List String)
    (hs : list_stations env sido = .ok stations)
    (hempty : ∀ f ∈ fetchFrames env pdT pdN target (stations.take ms), f = []) :
    city_hourly_series env pdT pdN sido city target n ms = .ok [] := by
  rw [city_hourly_series_eq, hs]
  simp only [Except.bind]
  by_cases hfe : fetchFrames env pdT pdN target (stations.take ms) = []
  · rw [if_pos hfe]
  · rw [if_neg hfe]
    rw [List.flatten_eq_nil_iff.mpr hempty]
    simp [windowFilter, listMax, groupMeanByDatetime]

/-- Witness for C5: with every per-station fetch failing, the Seoul
aggregation returns the empty table. -/
theorem c5_witness :
    city_hourly_series allSeriesFailEnv sampleT sampleN "서울" "Seoul" "pm25" 48 6
      = .ok [] :=
  c5_no_rows_empty_schema allSeriesFailEnv sampleT sampleN "서울" "Seoul" "pm25" 48 6
    ["A", "B"] (by with_unfolding_all rfl)
    (fun f hf => by
      have h0 : fetchFrames allSeriesFailEnv sampleT sampleN "pm25"
          (List.take 6 ["A", "B"]) = [] := by with_unfolding_all rfl
      rw [h0] at hf
      exact absurd hf (List.not_mem_nil f))

/-- Unfolding of the fetcher's monadic pipeline. -/
theorem station_recent_hours_eq (env : Env) (pdT : String → Option Int)
    (pdN : String → Option ℚ) (station target : String) :
    station_recent_hours env pdT pdN station target =
      (env.seriesResp station).bind (fun body =>
        (getItems body).bind (fun items =>
          match items with
          | .arr xs => .ok (xs.filterMap (parseRow pdT pdN target station))
          | _ => .error .typeError)) := rfl

/-- Claim C6: every row of a successful Station Time-Series Fetcher
result was produced from an upstream item whose timestamp cell coerces to
a valid instant — the row's datetime — and whose pollutant cell coerces
to a (finite) numeric value — the row's value; no row with an
unparseable timestamp or value survives. -/
theorem c6_rows_all_parsed (env : Env) (pdT : String → Option Int)
    (pdN : String → Option ℚ) (station target : String) (out : List Reading)
    (h : station_recent_hours env pdT pdN station target = .ok out) :
    ∀ r ∈ out, r.station = station ∧
      ∃ body xs it, env.seriesResp station = .ok body
        ∧ getItems body = .ok (.arr xs) ∧ it ∈ xs
        ∧ coerceDatetime pdT (lookupField it "dataTime") = some r.datetime
        ∧ coerceValue pdN (lookupField it (target ++ "Value")) = some r.value := by
  intro r hr
  rw [station_recent_hours_eq] at h
  cases hb : env.seriesResp station with
  | error e => rw [hb] at h; simp [Except.bind] at h
  | ok body =>
    rw [hb] at h
    simp only [Except.bind] at h
    cases hi : getItems body with
    | error e => rw [hi] at h; simp at h
    | ok items =>
      rw [hi] at h
      cases items with
      | arr xs =>
          simp only [Except.ok.injEq] at h
          subst h
          rcases List.mem_filterMap.mp hr with ⟨it, hit, hpr⟩
          unfold parseRow at hpr
          cases hct : coerceDatetime pdT (lookupField it "dataTime") with
          | none => rw [hct] at hpr; simp at hpr
          | some t =>
            cases hcv : coerceValue pdN (lookupField it (target ++ "Value")) with
            | none => rw [hct, hcv] at hpr; simp at hpr
            | some v =>
              rw [hct, hcv] at hpr
              simp only [Option.some.injEq] at hpr
              subst hpr
              exact ⟨rfl, body, xs, it, rfl, hi, hit, hct, hcv⟩
      | null => simp at h
      | bool b => simp at h
      | num q => simp at h
      | str s => simp at h
      | obj fields => simp at h

/-- Witness for C6: station B's only surviving row comes from the item
with parseable cells; the unparseable row was dropped. -/
theorem c6_witness :
    (⟨2, 30, "B"⟩ : Reading).station = "B" ∧
      ∃ body xs it, sampleEnv.seriesResp "B" = .ok body
        ∧ getItems body = .ok (.arr xs) ∧ it ∈ xs
        ∧ coerceDatetime sampleT (lookupField it "dataTime")
            = some (⟨2, 30, "B"⟩ : Reading).datetime
        ∧ coerceValue sampleN (lookupField it ("pm25" ++ "Value"))
            = some (⟨2, 30, "B"⟩ : Reading).value :=
  c6_rows_all_parsed sampleEnv sampleT sampleN "B" "pm25" [⟨2, 30, "B"⟩]
    (by with_unfolding_all rfl)
    ⟨2, 30, "B"⟩ (List.mem_cons_self _ _)

/-- Claim C7: when every configured province aggregates successfully, the
Multi-City Loader's output is exactly the row-wise concatenation of the
four City Aggregator outputs in configuration order, preserving all rows
(and therefore retains the city schema even when some are empty). -/
theorem c7_loader_concat (env : Env) (pdT : String → Option Int)
    (pdN : String → Option ℚ) (n : Int) (p : String)
    (o1 o2 o3 o4 : List CityRow)
    (h1 : city_hourly_series env pdT pdN "서울" "Seoul" p n 6 = .ok o1)
    (h2 : city_hourly_series env pdT pdN "인천" "Incheon" p n 6 = .ok o2)
    (h3 : city_hourly_series env pdT pdN "대전" "Daejeon" p n 6 = .ok o3)
    (h4 : city_hourly_series env pdT pdN "부산" "Busan" p n 6 = .ok o4) :
    load_all_cities env pdT pdN n p = .ok (o1 ++ o2 ++ o3 ++ o4) := by
  unfold load_all_cities
  simp only [SIDO_MAP, List.mapM_cons, List.mapM_nil]
  simp only [h1, h2, h3, h4, okBind, pureEqOk]
  simp [List.append_assoc]

/-- Witness for C7: on the sample upstream Seoul contributes two rows and
the other provinces zero rows, and the combined table is their
concatenation. -/
theorem c7_witness :
    load_all_cities sampleEnv sampleT sampleN 48 "pm25"
      = .ok (([⟨1, 10, "Seoul"⟩, ⟨2, 25, "Seoul"⟩] : List CityRow) ++ [] ++ [] ++ []) :=
  c7_loader_concat sampleEnv sampleT sampleN 48 "pm25"
    [⟨1, 10, "Seoul"⟩, ⟨2, 25, "Seoul"⟩] [] [] []
    (by with_unfolding_all rfl) (by with_unfolding_all rfl)
    (by with_unfolding_all rfl) (by with_unfolding_all rfl)

/-- Claim C8 (amended): a response body that reaches the extraction stage
with the items list absent or empty — in particular a body omitting any
of the `response`, `body` or `items` keys along the dict path — yields the
empty station set, not a failure. -/
theorem c8_missing_items_empty_set (env : Env) (sido : String) (body : Json)
    (hb : env.stationsResp sido = .ok body)
    (hi : getItems body = .ok (.arr [])) :
    list_stations env sido = .ok [] := by
  unfold list_stations
  rw [hb, okBind, hi, okBind]
  rfl

/-- Witness for C8 (amended): an empty-object body (no `response` key at
all) produces the empty station set. -/
theorem c8_witness : list_stations emptyDirEnv "서울" = .ok [] :=
  c8_missing_items_empty_set emptyDirEnv "서울" (.obj []) rfl
    (by with_unfolding_all rfl)

/-- Counterexample to claim C8 as stated: `noNameEnv` answers with HTTP
status 200 and a well-formed JSON body whose single items entry lacks the
`stationName` key; `list_stations` raises `KeyError` instead of returning
an empty set. -/
theorem c8_counterexample :
    noNameEnv.stationsResp "서울" = .ok noNameBody
    ∧ list_stations noNameEnv "서울" = .error .keyError :=
  ⟨rfl, by with_unfolding_all rfl⟩

/-- Claim C9: the pipeline is deterministic — two runs of the Multi-City
Loader against upstreams answering identically, with the same window and
pollutant key, produce identical combined tables; no hidden state enters
the result. -/
theorem c9_deterministic (env1 env2 : Env) (pdT : String → Option Int)
    (pdN : String → Option ℚ) (n : Int) (p : String)
    (hst : ∀ s, env1.stationsResp s = env2.stationsResp s)
    (hse : ∀ s, env1.seriesResp s = env2.seriesResp s) :
    load_all_cities env1 pdT pdN n p = load_all_cities env2 pdT pdN n p := by
  have h : env1 = env2 := by
    cases env1 with
    | mk a b =>
      cases env2 with
      | mk c d =>
        rw [show a = c from funext hst, show b = d from funext hse]
  rw [h]

/-- Witness recording C9 at the sample upstream: the two identical runs
agree. -/
theorem c9_witness :
    load_all_cities sampleEnv sampleT sampleN 48 "pm25"
      = load_all_cities sampleEnv sampleT sampleN 48 "pm25" :=
  c9_deterministic sampleEnv sampleEnv sampleT sampleN 48 "pm25"
    (fun _ => rfl) (fun _ => rfl)

/-- Characterisation of a successful name-extraction pass over the items
list: the result maps each item to its extracted name and every item
extracts successfully. -/
theorem mapM_extract_ok {xs : List Json} {names : List String}
    (h : xs.mapM extractName = .ok names) :
    names = xs.map (fun it => ((extractName it).toOption).getD "")
    ∧ ∀ it ∈ xs, ∃ s, extractName it = .ok s := by
  induction xs generalizing names with
  | nil =>
    rw [List.mapM_nil, pureEqOk] at h
    simp only [Except.ok.injEq] at h
    subst h
    exact ⟨rfl, fun it hit => absurd hit (List.not_mem_nil it)⟩
  | cons a as ih =>
    rw [List.mapM_cons] at h
    cases ha : extractName a with
    | error e => rw [ha, errBind] at h; simp at h
    | ok s =>
      rw [ha, okBind] at h
      cases hm : as.mapM extractName with
      | error e => rw [hm, errBind] at h; simp at h
      | ok ns =>
        rw [hm, okBind, pureEqOk] at h
        simp only [Except.ok.injEq] at h
        subst h
        obtain ⟨hmap, hall⟩ := ih hm
        refine ⟨?_, ?_⟩
        · rw [List.map_cons, ← hmap, ha]
          rfl
        · intro it hit
          rcases List.mem_cons.mp hit with rfl | hmem
          · exact ⟨s, ha⟩
          · exact hall it hmem

/-- The sorted set of names is invariant under permuting the input. -/
theorem sortedSet_perm_eq {l1 l2 : List String} (h : l1.Perm l2) :
    sortedSet l1 = sortedSet l2 := by
  unfold sortedSet
  refine List.eq_of_perm_of_sorted ?_
    (List.sorted_insertionSort _ _) (List.sorted_insertionSort _ _)
  exact ((List.perm_insertionSort _ _).trans (h.dedup)).trans
    (List.perm_insertionSort _ _).symm

/-- The sorted set of names is strictly increasing (so also duplicate
free). -/
theorem sortedSet_sorted_lt (l : List String) : (sortedSet l).Sorted (· < ·) := by
  unfold sortedSet
  refine List.Sorted.lt_of_le (List.sorted_insertionSort _ _) ?_
  exact ((List.perm_insertionSort (· ≤ ·) _).nodup_iff).mpr (List.nodup_dedup _)

/-- In a strictly increasing list, every element of a length-k front
segment is below every element of the corresponding tail. -/
theorem sorted_take_lt_drop {l : List String} (h : l.Sorted (· < ·)) (k : Nat) :
    ∀ a ∈ l.take k, ∀ b ∈ l.drop k, a < b := by
  have h2 : (l.take k ++ l.drop k).Sorted (· < ·) := by
    rw [List.take_append_drop]
    exact h
  exact (List.pairwise_append.mp h2).2.2

/-- Decomposition of a successful directory fetch into its extraction
pass and final sorted set. -/
theorem list_stations_ok_elim {env : Env} {sido : String} {body : Json}
    {xs : List Json} {out : List String}
    (hb : env.stationsResp sido = .ok body)
    (hi : getItems body = .ok (.arr xs))
    (h : list_stations env sido = .ok out) :
    ∃ names, xs.mapM extractName = .ok names ∧ out = sortedSet names := by
  unfold list_stations at h
  rw [hb, okBind, hi, okBind] at h
  change (xs.mapM extractName >>= fun names => pure (sortedSet names)) = .ok out at h
  cases hm : xs.mapM extractName with
  | error e => rw [hm, errBind] at h; simp at h
  | ok names =>
    rw [hm, okBind, pureEqOk] at h
    simp only [Except.ok.injEq] at h
    exact ⟨names, rfl, h.symm⟩

/-- Claim C10: the Station Directory Fetcher returns the station names
deduplicated and sorted in strictly ascending lexicographic order, and
its output is independent of the upstream arrival order of the items;
consequently truncating to the first `max_stations` entries always
selects the alphabetically first station names. -/
theorem c10_sorted_unique_truncation (env env' : Env) (sido : String)
    (body body' : Json) (xs xs' : List Json) (out out' : List String)
    (hb : env.stationsResp sido = .ok body)
    (hi : getItems body = .ok (.arr xs))
    (hb' : env'.stationsResp sido = .ok body')
    (hi' : getItems body' = .ok (.arr xs'))
    (hperm : xs.Perm xs')
    (h : list_stations env sido = .ok out)
    (h' : list_stations env' sido = .ok out') :
    out = out' ∧ out.Sorted (· < ·)
    ∧ ∀ k, ∀ a ∈ out.take k, ∀ b ∈ out.drop k, a < b := by
  obtain ⟨names, hm, hout⟩ := list_stations_ok_elim hb hi h
  obtain ⟨names', hm', hout'⟩ := list_stations_ok_elim hb' hi' h'
  obtain ⟨hmap, -⟩ := mapM_extract_ok hm
  obtain ⟨hmap', -⟩ := mapM_extract_ok hm'
  have hnp : names.Perm names' := by
    rw [hmap, hmap']
    exact hperm.map _
  have hsorted : out.Sorted (· < ·) := by
    rw [hout]
    exact sortedSet_sorted_lt names
  refine ⟨?_, hsorted, fun k => sorted_take_lt_drop hsorted k⟩
  rw [hout, hout']
  exact sortedSet_perm_eq hnp

/-- Witness for C10: the directories listing stations as B, A and as
A, B both return the sorted deduplicated list, whose 1-element
truncation is the alphabetically first name. -/
theorem c10_witness :
    (["A", "B"] : List String) = ["A", "B"]
    ∧ (["A", "B"] : List String).Sorted (· < ·)
    ∧ ∀ k, ∀ a ∈ (["A", "B"] : List String).take k,
        ∀ b ∈ (["A", "B"] : List String).drop k, a < b :=
  c10_sorted_unique_truncation permEnvBA permEnvAB "서울"
    (dirBody ["B", "A"]) (dirBody ["A", "B"])
    [oneStation "B", oneStation "A"] [oneStation "A", oneStation "B"]
    ["A", "B"] ["A", "B"]
    rfl (by with_unfolding_all rfl) rfl (by with_unfolding_all rfl)
    (List.Perm.swap (oneStation "A") (oneStation "B") [])
    (by with_unfolding_all rfl) (by with_unfolding_all rfl)

end AirKorea
